import Mathlib

/-!
Verification of the output bridge of a stereo visual-inertial-odometry ROS
wrapper (header: src/include/spark-vio-ros/base-data-source.h).

The header declares the bridge class RosBaseDataProvider: a threadsafe queue
of keyframe output packets (member vio_output_queue_), calibration parsing
(parseCameraData), image decoding (readRosDepthImage), and the publishing
functions (publishTimeHorizonPointCloud, publishPerFrameMesh3D,
publishTimeHorizonMesh3D, publishState).  The implementations of these
operations are not part of the visible sources (only their declarations are),
so they are modelled from the specification; the PointNormalUV struct and its
channel registration macro POINT_CLOUD_REGISTER_POINT_STRUCT are fully visible
in the header and are embedded directly from it.
-/

namespace SparkVioRos

/-! ## Threadsafe output queue

Modelled from the spec: the implementation of ThreadsafeQueue behind the
member vio_output_queue_ (base-data-source.h line 101) is not in the visible
sources.  The spec gives: bounded FIFO; push never blocks and returns false,
dropping the incoming packet, when the queue is at capacity or shut down;
popBlocking returns the oldest item, or none on timeout or shutdown;
shutdown is idempotent and permanent.  The overflow policy is drop-newest,
the default the spec assumes. -/

structure ThreadsafeQueue (α : Type) where
  items : List α
  capacity : Nat
  isShutdown : Bool

/-- Modelled from the spec: a fresh queue of the given capacity. -/
def ThreadsafeQueue.empty (cap : Nat) : ThreadsafeQueue α :=
  { items := [], capacity := cap, isShutdown := false }

/-- Modelled from the spec: push never blocks; it fails (returning false and
dropping the packet) after shutdown or when the queue is at capacity,
otherwise it appends the packet at the back. -/
def ThreadsafeQueue.push (q : ThreadsafeQueue α) (a : α) :
    ThreadsafeQueue α × Bool :=
  if q.isShutdown then (q, false)
  else if q.capacity ≤ q.items.length then (q, false)
  else ({ q with items := q.items ++ [a] }, true)

/-- Modelled from the spec: popBlocking returns the oldest enqueued packet;
it returns none after shutdown (regardless of enqueued items) or when the
timeout elapses on an empty queue. -/
def ThreadsafeQueue.popBlocking (q : ThreadsafeQueue α) :
    ThreadsafeQueue α × Option α :=
  if q.isShutdown then (q, none)
  else
    match q.items with
    | [] => (q, none)
    | x :: xs => ({ q with items := xs }, some x)

/-- Modelled from the spec: shutdown marks the queue closed. -/
def ThreadsafeQueue.shutdown (q : ThreadsafeQueue α) : ThreadsafeQueue α :=
  { q with isShutdown := true }

/-- Push a whole list of packets in order, collecting the push results. -/
def pushSeq : ThreadsafeQueue α → List α → ThreadsafeQueue α × List Bool
  | q, [] => (q, [])
  | q, a :: l =>
    let r := q.push a
    let s := pushSeq r.1 l
    (s.1, r.2 :: s.2)

/-- Perform n blocking pops in order, collecting the delivered packets. -/
def popSeq : ThreadsafeQueue α → Nat → ThreadsafeQueue α × List α
  | q, 0 => (q, [])
  | q, n + 1 =>
    let r := q.popBlocking
    let s := popSeq r.1 n
    (s.1, match r.2 with
          | some a => a :: s.2
          | none => s.2)

/-- A single producer or consumer step on the queue. -/
inductive QueueOp (α : Type) where
  | push (a : α)
  | pop

/-- Run a sequence of queue operations, discarding results. -/
def runOps : ThreadsafeQueue α → List (QueueOp α) → ThreadsafeQueue α
  | q, [] => q
  | q, QueueOp.push a :: ops => runOps (q.push a).1 ops
  | q, QueueOp.pop :: ops => runOps q.popBlocking.1 ops

theorem pushSeq_ok {α : Type} (l : List α) :
    ∀ q : ThreadsafeQueue α, q.isShutdown = false →
      q.items.length + l.length ≤ q.capacity →
      (pushSeq q l).1 = { q with items := q.items ++ l } ∧
      (pushSeq q l).2 = List.replicate l.length true := by
  induction l with
  | nil => intro q _ _; simp [pushSeq]
  | cons a l ih =>
    intro q hsd hlen
    have hlt : q.items.length < q.capacity := by
      simp only [List.length_cons] at hlen; omega
    have hpush : q.push a = ({ q with items := q.items ++ [a] }, true) := by
      simp [ThreadsafeQueue.push, hsd, Nat.not_le.mpr hlt]
    have hlen2 : ({ q with items := q.items ++ [a] } :
        ThreadsafeQueue α).items.length + l.length ≤
        ({ q with items := q.items ++ [a] } : ThreadsafeQueue α).capacity := by
      simp only [List.length_append, List.length_cons, List.length_nil] at *
      omega
    have ihq := ih { q with items := q.items ++ [a] } (by simp [hsd]) hlen2
    simp only [pushSeq, hpush, List.length_cons]
    refine ⟨?_, ?_⟩
    · rw [ihq.1]; simp
    · rw [ihq.2]; rfl

theorem popSeq_all {α : Type} (l : List α) :
    ∀ q : ThreadsafeQueue α, q.isShutdown = false → q.items = l →
      (popSeq q l.length).1 = { q with items := [] } ∧
      (popSeq q l.length).2 = l := by
  induction l with
  | nil => intro q _ hit; simp [popSeq, ← hit]
  | cons a l ih =>
    intro q hsd hit
    have hpop : q.popBlocking = ({ q with items := l }, some a) := by
      simp [ThreadsafeQueue.popBlocking, hsd, hit]
    have ihq := ih { q with items := l } (by simp [hsd]) rfl
    simp only [List.length_cons, popSeq, hpop]
    exact ⟨ihq.1, by rw [ihq.2]⟩

/-- Claim C1: for every sequence of N pushes into a fresh threadsafe output
queue followed by N blocking pops, with no shutdown and the queue never over
capacity, every push succeeds (so no packet is dropped without push reporting
it) and the popped sequence equals the pushed sequence exactly: FIFO order,
no duplicate delivery, no silent loss. -/
theorem C1_fifo_order {α : Type} (l : List α) (cap : Nat)
    (hcap : l.length ≤ cap) :
    (pushSeq (ThreadsafeQueue.empty cap) l).2 = List.replicate l.length true ∧
    (popSeq (pushSeq (ThreadsafeQueue.empty cap) l).1 l.length).2 = l := by
  have hp := pushSeq_ok l (ThreadsafeQueue.empty cap) rfl
    (by simpa [ThreadsafeQueue.empty] using hcap)
  refine ⟨hp.2, ?_⟩
  have hq := popSeq_all l (pushSeq (ThreadsafeQueue.empty cap) l).1
    (by rw [hp.1]; rfl) (by rw [hp.1]; simp [ThreadsafeQueue.empty])
  exact hq.2

/-- Witness for C1 at a concrete input: pushing [10, 20, 30] into an empty
queue of capacity 3 and popping three times delivers [10, 20, 30]. -/
theorem C1_fifo_order_witness :
    (pushSeq (ThreadsafeQueue.empty 3) [10, 20, 30]).2 =
      List.replicate 3 true ∧
    (popSeq (pushSeq (ThreadsafeQueue.empty 3) [10, 20, 30]).1 3).2 =
      [10, 20, 30] :=
  C1_fifo_order [10, 20, 30] 3 (by decide)

/-- Claim C2: pushing into a queue at capacity returns false and drops the
incoming packet, leaving the queue state untouched, and all previously
accepted packets are still delivered afterwards in their original order. -/
theorem C2_overflow_drop {α : Type} (q : ThreadsafeQueue α) (a : α)
    (hsd : q.isShutdown = false) (hfull : q.items.length = q.capacity) :
    (q.push a).2 = false ∧
    (q.push a).1 = q ∧
    (popSeq (q.push a).1 q.items.length).2 = q.items := by
  have hp : q.push a = (q, false) := by
    simp [ThreadsafeQueue.push, hsd, Nat.le_of_eq hfull.symm]
  refine ⟨by rw [hp], by rw [hp], ?_⟩
  rw [hp]
  exact (popSeq_all q.items q hsd rfl).2

/-- Witness for C2 at a concrete input: a capacity-2 queue holding [1, 2]
rejects a push of 3 and still delivers [1, 2]. -/
theorem C2_overflow_drop_witness :
    (ThreadsafeQueue.push ⟨[1, 2], 2, false⟩ 3).2 = false ∧
    (ThreadsafeQueue.push ⟨[1, 2], 2, false⟩ 3).1 =
      (⟨[1, 2], 2, false⟩ : ThreadsafeQueue Nat) ∧
    (popSeq (ThreadsafeQueue.push ⟨[1, 2], 2, false⟩ 3).1 2).2 = [1, 2] :=
  C2_overflow_drop ⟨[1, 2], 2, false⟩ 3 rfl rfl

theorem runOps_isShutdown {α : Type} (ops : List (QueueOp α)) :
    ∀ q : ThreadsafeQueue α, q.isShutdown = true →
      (runOps q ops).isShutdown = true := by
  induction ops with
  | nil => intro q h; simpa [runOps] using h
  | cons op ops ih =>
    intro q h
    cases op with
    | push a =>
      simp only [runOps]
      exact ih _ (by simp [ThreadsafeQueue.push, h])
    | pop =>
      simp only [runOps]
      exact ih _ (by simp [ThreadsafeQueue.popBlocking, h])

/-- Claim C3: shutdown is idempotent, and for every queue state (items still
enqueued included) and every further sequence of operations after shutdown,
popBlocking returns empty and push fails. -/
theorem C3_shutdown (q : ThreadsafeQueue α) (a : α) (ops : List (QueueOp α)) :
    q.shutdown.shutdown = q.shutdown ∧
    (runOps q.shutdown ops).popBlocking.2 = none ∧
    ((runOps q.shutdown ops).push a).2 = false := by
  have hsd : (runOps q.shutdown ops).isShutdown = true :=
    runOps_isShutdown ops q.shutdown rfl
  refine ⟨rfl, ?_, ?_⟩
  · simp [ThreadsafeQueue.popBlocking, hsd]
  · simp [ThreadsafeQueue.push, hsd]

/-! ## Landmarks, the time-horizon point cloud and the meshes

Modelled from the spec: the bodies of publishTimeHorizonPointCloud,
publishPerFrameMesh3D and publishTimeHorizonMesh3D (base-data-source.h
lines 117-121) are not in the visible sources.  The spec gives: the
time-horizon point cloud merges each packet's landmark-id to position map
into the accumulated set, deduplicating by landmark identifier and keeping
each landmark's most recent position; the per-frame mesh builds a vertex
(position + normal + texture coordinate) for exactly the landmarks of the
current packet; the time-horizon mesh applies the same vertex construction
rule to the accumulated set. -/

abbrev LmkId := Nat

abbrev Point3 := ℚ × ℚ × ℚ

/-- A landmark-id to 3-D position map (PointsWithIdMap in the source domain):
an association list with unique keys. -/
abbrev PointsWithIdMap := List (LmkId × Point3)

/-- Modelled from the spec: record one landmark in the accumulated map,
replacing its previous position when the identifier is already present. -/
def updateLmk (m : PointsWithIdMap) (k : LmkId) (p : Point3) :
    PointsWithIdMap :=
  if m.any (fun e => e.1 = k) then
    m.map (fun e => if e.1 = k then (k, p) else e)
  else m ++ [(k, p)]

/-- Modelled from the spec: publishTimeHorizonPointCloud merges a packet's
landmark map into the accumulated time-horizon map, deduplicating by
landmark identifier and keeping the most recent position. -/
def mergeTimeHorizon (acc : PointsWithIdMap) (pkt : PointsWithIdMap) :
    PointsWithIdMap :=
  pkt.foldl (fun m e => updateLmk m e.1 e.2) acc

theorem map_fst_replace (m : PointsWithIdMap) (k : LmkId) (p : Point3) :
    (m.map (fun e => if e.1 = k then (k, p) else e)).map Prod.fst =
      m.map Prod.fst := by
  induction m with
  | nil => rfl
  | cons e m ih =>
    simp only [List.map_cons, ih]
    by_cases h : e.1 = k
    · simp [h]
    · simp [h]

theorem updateLmk_keys (m : PointsWithIdMap) (k : LmkId) (p : Point3) :
    (updateLmk m k p).map Prod.fst =
      if m.any (fun e => e.1 = k) then m.map Prod.fst
      else m.map Prod.fst ++ [k] := by
  unfold updateLmk
  split
  · exact map_fst_replace m k p
  · simp

theorem mem_keys_updateLmk_self (m : PointsWithIdMap) (k : LmkId)
    (p : Point3) : k ∈ (updateLmk m k p).map Prod.fst := by
  rw [updateLmk_keys]
  split
  · rename_i h
    rcases List.any_eq_true.mp h with ⟨e, hem, hek⟩
    exact List.mem_map.mpr ⟨e, hem, of_decide_eq_true hek⟩
  · simp

theorem mem_keys_updateLmk_of_mem (m : PointsWithIdMap) (j k : LmkId)
    (p : Point3) (h : k ∈ m.map Prod.fst) :
    k ∈ (updateLmk m j p).map Prod.fst := by
  rw [updateLmk_keys]
  split
  · exact h
  · exact List.mem_append_left _ h

theorem mem_keys_merge_of_mem (pkt : PointsWithIdMap) :
    ∀ (acc : PointsWithIdMap) (k : LmkId), k ∈ acc.map Prod.fst →
      k ∈ (mergeTimeHorizon acc pkt).map Prod.fst := by
  induction pkt with
  | nil => intro acc k h; exact h
  | cons e pkt ih =>
    intro acc k h
    exact ih (updateLmk acc e.1 e.2) k
      (mem_keys_updateLmk_of_mem acc e.1 k e.2 h)

theorem mem_keys_merge_of_mem_pkt (pkt : PointsWithIdMap) :
    ∀ (acc : PointsWithIdMap) (k : LmkId), k ∈ pkt.map Prod.fst →
      k ∈ (mergeTimeHorizon acc pkt).map Prod.fst := by
  induction pkt with
  | nil => intro acc k h; cases h
  | cons e pkt ih =>
    intro acc k h
    rcases List.mem_cons.mp h with h | h
    · subst h
      exact mem_keys_merge_of_mem pkt (updateLmk acc e.1 e.2) e.1
        (mem_keys_updateLmk_self acc e.1 e.2)
    · exact ih (updateLmk acc e.1 e.2) k h

/-- Claim C4: the time-horizon point cloud merges consecutive packets'
landmark maps deduplicated by landmark identifier, keeping each landmark's
most recent position: after publishing P1 with landmarks
A at (0,0,0) and B at (1,0,0), then P2 with A at (0,0,0.1) and C at (2,0,0),
the accumulated time-horizon map contains exactly A at (0,0,0.1),
B at (1,0,0) and C at (2,0,0), each landmark once. -/
theorem C4_time_horizon_merge :
    (∀ e : LmkId × Point3,
      e ∈ mergeTimeHorizon (mergeTimeHorizon []
        [(0, ((0 : ℚ), (0 : ℚ), (0 : ℚ))), (1, (1, 0, 0))])
        [(0, (0, 0, 1/10)), (2, (2, 0, 0))] ↔
      e ∈ [(0, ((0 : ℚ), (0 : ℚ), (1 : ℚ)/10)), (1, (1, 0, 0)),
        (2, (2, 0, 0))]) ∧
    ((mergeTimeHorizon (mergeTimeHorizon []
        [(0, ((0 : ℚ), (0 : ℚ), (0 : ℚ))), (1, (1, 0, 0))])
        [(0, (0, 0, 1/10)), (2, (2, 0, 0))]).map Prod.fst).Nodup := by
  have h : mergeTimeHorizon (mergeTimeHorizon []
      [(0, ((0 : ℚ), (0 : ℚ), (0 : ℚ))), (1, (1, 0, 0))])
      [(0, (0, 0, 1/10)), (2, (2, 0, 0))] =
      [(0, ((0 : ℚ), (0 : ℚ), (1 : ℚ)/10)), (1, (1, 0, 0)),
        (2, (2, 0, 0))] := rfl
  refine ⟨fun e => by rw [h], ?_⟩
  rw [h]
  simp

/-- A mesh vertex (the PointNormalUV record of the header): a 3-D position,
a 3-D normal and 2-D texture coordinates.  Embedded from
base-data-source.h lines 46-52 (the PCL_ADD_POINT4D and PCL_ADD_NORMAL4D
padding fields carry no data and are omitted). -/
structure PointNormalUV where
  x : ℚ
  y : ℚ
  z : ℚ
  normal_x : ℚ
  normal_y : ℚ
  normal_z : ℚ
  u : ℚ
  v : ℚ
deriving DecidableEq

/-- Modelled from the spec: the single vertex construction rule, combining
position, normal and texture coordinates into a PointNormalUV. -/
def mkMeshVertex (pos nrm : Point3) (uv : ℚ × ℚ) : PointNormalUV :=
  { x := pos.1, y := pos.2.1, z := pos.2.2,
    normal_x := nrm.1, normal_y := nrm.2.1, normal_z := nrm.2.2,
    u := uv.1, v := uv.2 }

/-- Build one mesh vertex per landmark of a landmark map, using the given
per-landmark normals and texture coordinates. -/
def buildMeshVertices (pts : PointsWithIdMap) (nrmOf : LmkId → Point3)
    (uvOf : LmkId → ℚ × ℚ) : List (LmkId × PointNormalUV) :=
  pts.map (fun e => (e.1, mkMeshVertex e.2 (nrmOf e.1) (uvOf e.1)))

/-- Modelled from the spec: publishPerFrameMesh3D builds mesh vertices from
only the landmarks observed in the current packet. -/
def publishPerFrameMesh3D (pkt : PointsWithIdMap) (nrmOf : LmkId → Point3)
    (uvOf : LmkId → ℚ × ℚ) : List (LmkId × PointNormalUV) :=
  buildMeshVertices pkt nrmOf uvOf

/-- Modelled from the spec: publishTimeHorizonMesh3D builds mesh vertices
from the accumulated time-horizon landmark set with the same vertex
construction rule as the per-frame mesh. -/
def publishTimeHorizonMesh3D (acc : PointsWithIdMap) (nrmOf : LmkId → Point3)
    (uvOf : LmkId → ℚ × ℚ) : List (LmkId × PointNormalUV) :=
  buildMeshVertices acc nrmOf uvOf

/-- Claim C5: the per-frame mesh carries vertices for exactly the landmarks
of the current packet's point map; the time-horizon mesh (built over the
accumulated map after merging the packet) covers a superset of those
landmarks; and both meshes are built by the same vertex construction rule
mkMeshVertex applied through buildMeshVertices. -/
theorem C5_mesh_landmarks (acc pkt : PointsWithIdMap)
    (nrmOf : LmkId → Point3) (uvOf : LmkId → ℚ × ℚ) :
    (publishPerFrameMesh3D pkt nrmOf uvOf).map Prod.fst =
      pkt.map Prod.fst ∧
    (∀ k, k ∈ (publishPerFrameMesh3D pkt nrmOf uvOf).map Prod.fst →
      k ∈ (publishTimeHorizonMesh3D (mergeTimeHorizon acc pkt) nrmOf
        uvOf).map Prod.fst) ∧
    publishPerFrameMesh3D pkt nrmOf uvOf = buildMeshVertices pkt nrmOf uvOf ∧
    publishTimeHorizonMesh3D (mergeTimeHorizon acc pkt) nrmOf uvOf =
      buildMeshVertices (mergeTimeHorizon acc pkt) nrmOf uvOf := by
  have hkeys : ∀ (m : PointsWithIdMap),
      (buildMeshVertices m nrmOf uvOf).map Prod.fst = m.map Prod.fst := by
    intro m
    simp [buildMeshVertices, List.map_map, Function.comp]
  refine ⟨hkeys pkt, ?_, rfl, rfl⟩
  intro k hk
  rw [publishPerFrameMesh3D, hkeys pkt] at hk
  rw [publishTimeHorizonMesh3D, hkeys (mergeTimeHorizon acc pkt)]
  exact mem_keys_merge_of_mem_pkt pkt acc k hk

/-- Witness for C5 at a concrete input: accumulated map with landmark 7,
packet with landmarks 1 and 2, constant normals and texture coordinates. -/
theorem C5_mesh_landmarks_witness :
    (publishPerFrameMesh3D [(1, (1, 0, 0)), (2, (0, 2, 0))]
        (fun _ => (0, 0, 1)) (fun _ => (0, 0))).map Prod.fst =
      [1, 2] ∧
    (1 : LmkId) ∈ (publishTimeHorizonMesh3D
        (mergeTimeHorizon [(7, ((5 : ℚ), (5 : ℚ), (5 : ℚ)))]
          [(1, (1, 0, 0)), (2, (0, 2, 0))])
        (fun _ => (0, 0, 1)) (fun _ => (0, 0))).map Prod.fst := by
  have h := C5_mesh_landmarks [(7, ((5 : ℚ), (5 : ℚ), (5 : ℚ)))]
    [(1, (1, 0, 0)), (2, (0, 2, 0))] (fun _ => (0, 0, 1)) (fun _ => (0, 0))
  refine ⟨h.1, h.2.1 1 ?_⟩
  rw [h.1]
  decide

/-! ## Depth image decoding

Modelled from the spec: the body of readRosDepthImage (base-data-source.h
line 73) is not in the visible sources.  The spec gives: a 16-bit depth
image declares a scale factor (1000 for millimeters to meters) and each raw
pixel value is divided by that scale to obtain the depth in meters in the
internal dense-image representation. -/

/-- Modelled from the spec: decode one raw 16-bit depth pixel under the
declared scale factor. -/
def decodeDepthPixel (scale : ℚ) (raw : Nat) : ℚ :=
  (raw : ℚ) / scale

/-- Modelled from the spec: readRosDepthImage decodes every raw pixel of the
message under the declared scale factor. -/
def readRosDepthImage (scale : ℚ) (pixels : List Nat) : List ℚ :=
  pixels.map (decodeDepthPixel scale)

/-- Claim C7: for every 16-bit depth image with declared scale 1000
(millimeters to meters), a raw pixel of value 2500 decodes to the depth
value 2.5 at the same position of the internal representation. -/
theorem C7_depth_decode (pixels : List Nat) (i : Nat)
    (h : pixels[i]? = some 2500) :
    (readRosDepthImage 1000 pixels)[i]? = some (5/2 : ℚ) := by
  rw [readRosDepthImage, List.getElem?_map, h]
  norm_num [decodeDepthPixel]

/-- Witness for C7 at a concrete input: the one-pixel image [2500]. -/
theorem C7_depth_decode_witness :
    (readRosDepthImage 1000 [2500])[0]? = some (5/2 : ℚ) :=
  C7_depth_decode [2500] 0 rfl

/-! ## Camera calibration parsing and bridge startup

Modelled from the spec: the body of parseCameraData (base-data-source.h
line 76) and the startup sequence of the bridge are not in the visible
sources.  The spec gives: parsing fails with a CalibrationError when
required fields are absent, when declared and runtime image resolutions
mismatch, or when the declared relative pose between the cameras is not a
valid rigid transform (its rotation component not orthonormal); a
calibration failure prevents the bridge from starting, before any sensor
callback is registered. -/

/-- A 3 by 3 matrix of rationals, the rotation component of a declared
relative camera pose. -/
structure Mat3 where
  a11 : ℚ
  a12 : ℚ
  a13 : ℚ
  a21 : ℚ
  a22 : ℚ
  a23 : ℚ
  a31 : ℚ
  a32 : ℚ
  a33 : ℚ
deriving DecidableEq

/-- A rotation matrix is orthonormal when its rows are unit length and
pairwise orthogonal and its determinant is one (a proper rigid rotation). -/
def Mat3.IsOrthonormal (R : Mat3) : Prop :=
  R.a11 * R.a11 + R.a12 * R.a12 + R.a13 * R.a13 = 1 ∧
  R.a21 * R.a21 + R.a22 * R.a22 + R.a23 * R.a23 = 1 ∧
  R.a31 * R.a31 + R.a32 * R.a32 + R.a33 * R.a33 = 1 ∧
  R.a11 * R.a21 + R.a12 * R.a22 + R.a13 * R.a23 = 0 ∧
  R.a11 * R.a31 + R.a12 * R.a32 + R.a13 * R.a33 = 0 ∧
  R.a21 * R.a31 + R.a22 * R.a32 + R.a23 * R.a33 = 0 ∧
  R.a11 * (R.a22 * R.a33 - R.a23 * R.a32) -
    R.a12 * (R.a21 * R.a33 - R.a23 * R.a31) +
    R.a13 * (R.a21 * R.a32 - R.a22 * R.a31) = 1

instance (R : Mat3) : Decidable R.IsOrthonormal := by
  unfold Mat3.IsOrthonormal
  infer_instance

/-- Declared per-camera parameters (intrinsics with image resolution). -/
structure CameraInfo where
  width : Nat
  height : Nat
  fx : ℚ
  fy : ℚ
  cx : ℚ
  cy : ℚ
deriving DecidableEq

/-- The configuration the bridge reads from the parameter server: optional
per-camera parameters (absent fields make parsing fail), the runtime image
resolution, and the declared relative pose between the cameras. -/
structure CameraConfig where
  leftInfo : Option CameraInfo
  rightInfo : Option CameraInfo
  runtimeWidth : Nat
  runtimeHeight : Nat
  relRot : Mat3
  relTrans : Point3

/-- The parsed stereo calibration (StereoCalibration of the header):
left and right camera parameters and the relative pose camL_Pose_camR_. -/
structure StereoCalibration where
  left_camera_info_ : CameraInfo
  right_camera_info_ : CameraInfo
  camL_Pose_camR_rot : Mat3
  camL_Pose_camR_trans : Point3

/-- The errors of the bridge taxonomy relevant to startup. -/
inductive BridgeError where
  | CalibrationError
deriving DecidableEq

/-- Modelled from the spec: parseCameraData fails with a CalibrationError
when a required camera field is absent, when the declared resolution
mismatches the runtime image size, or when the rotation component of the
declared relative pose is not orthonormal; otherwise it returns the parsed
stereo calibration. -/
def parseCameraData (cfg : CameraConfig) :
    Except BridgeError StereoCalibration :=
  match cfg.leftInfo with
  | none => Except.error BridgeError.CalibrationError
  | some li =>
    match cfg.rightInfo with
    | none => Except.error BridgeError.CalibrationError
    | some ri =>
      if li.width = cfg.runtimeWidth ∧ li.height = cfg.runtimeHeight ∧
          ri.width = cfg.runtimeWidth ∧ ri.height = cfg.runtimeHeight then
        if cfg.relRot.IsOrthonormal then
          Except.ok { left_camera_info_ := li, right_camera_info_ := ri,
                      camL_Pose_camR_rot := cfg.relRot,
                      camL_Pose_camR_trans := cfg.relTrans }
        else Except.error BridgeError.CalibrationError
      else Except.error BridgeError.CalibrationError

/-- The bridge after a successful start: the parsed calibration and the
sensor callbacks registered with the transport layer. -/
structure BridgeState where
  calib : StereoCalibration
  registeredCallbacks : List String

/-- Modelled from the spec: the bridge start sequence parses the calibration
first and registers the sensor callbacks only on success; a calibration
failure aborts initialization before any callback is registered. -/
def startBridge (cfg : CameraConfig) : Except BridgeError BridgeState :=
  match parseCameraData cfg with
  | Except.error e => Except.error e
  | Except.ok calib =>
    Except.ok { calib := calib,
                registeredCallbacks := ["left_cam", "right_cam", "imu"] }

/-- Claim C6: for every configuration whose declared relative camera pose
has a non-orthonormal rotation component, parseCameraData fails with a
CalibrationError and the bridge does not start, so no sensor callback is
ever registered. -/
theorem C6_calibration_error (cfg : CameraConfig)
    (h : ¬ cfg.relRot.IsOrthonormal) :
    parseCameraData cfg = Except.error BridgeError.CalibrationError ∧
    startBridge cfg = Except.error BridgeError.CalibrationError ∧
    ∀ s : BridgeState, startBridge cfg ≠ Except.ok s := by
  have hp : parseCameraData cfg = Except.error BridgeError.CalibrationError := by
    unfold parseCameraData
    rcases cfg.leftInfo with _ | li
    · rfl
    · rcases cfg.rightInfo with _ | ri
      · rfl
      · simp only [if_neg h]
        split <;> rfl
  refine ⟨hp, ?_, ?_⟩
  · unfold startBridge; rw [hp]
  · intro s hs
    unfold startBridge at hs
    rw [hp] at hs
    exact Except.noConfusion hs

/-- Witness for C6 at a concrete input: a complete configuration whose
relative rotation scales the first axis by two, hence is not orthonormal. -/
theorem C6_calibration_error_witness :
    parseCameraData
      { leftInfo := some ⟨640, 480, 450, 450, 320, 240⟩,
        rightInfo := some ⟨640, 480, 450, 450, 320, 240⟩,
        runtimeWidth := 640, runtimeHeight := 480,
        relRot := ⟨2, 0, 0, 0, 1, 0, 0, 0, 1⟩,
        relTrans := (1/10, 0, 0) } =
      Except.error BridgeError.CalibrationError :=
  (C6_calibration_error
    { leftInfo := some ⟨640, 480, 450, 450, 320, 240⟩,
      rightInfo := some ⟨640, 480, 450, 450, 320, 240⟩,
      runtimeWidth := 640, runtimeHeight := 480,
      relRot := ⟨2, 0, 0, 0, 1, 0, 0, 0, 1⟩,
      relTrans := (1/10, 0, 0) }
    (by norm_num [Mat3.IsOrthonormal])).1

/-! ## Published state timestamps

Modelled from the spec: the body of publishState (base-data-source.h
line 122) and the transform broadcast through odom_broadcaster_ (line 131)
are not in the visible sources.  The spec gives: the published pose/odometry
and the broadcast world to body transform are stamped with the packet's own
timestamp, never the wall-clock time at publication. -/

/-- The keyframe output packet (SpinOutputPacket in the source domain),
restricted to the fields the published state depends on. -/
structure SpinOutputPacket where
  timestamp : Nat
  poseRot : Mat3
  poseTrans : Point3
deriving DecidableEq

/-- An odometry message: a stamp, the frame ids and the pose. -/
structure OdometryMsg where
  stamp : Nat
  frame_id : String
  child_frame_id : String
  poseRot : Mat3
  poseTrans : Point3
deriving DecidableEq

/-- A broadcast transform: a stamp, the frame ids and the transform. -/
structure TransformMsg where
  stamp : Nat
  frame_id : String
  child_frame_id : String
  rot : Mat3
  trans : Point3
deriving DecidableEq

/-- Modelled from the spec: publishState derives the odometry message and
the world to body transform broadcast from a dequeued packet; both are
stamped with the packet's own timestamp.  The wall-clock time at the moment
of publication is passed as an argument and must not influence the output. -/
def publishState (_wallClock : Nat) (worldFrame baseLinkFrame : String)
    (pkt : SpinOutputPacket) : OdometryMsg × TransformMsg :=
  ({ stamp := pkt.timestamp, frame_id := worldFrame,
     child_frame_id := baseLinkFrame,
     poseRot := pkt.poseRot, poseTrans := pkt.poseTrans },
   { stamp := pkt.timestamp, frame_id := worldFrame,
     child_frame_id := baseLinkFrame,
     rot := pkt.poseRot, trans := pkt.poseTrans })

/-- Claim C9: the published odometry and the broadcast transform carry the
packet's own timestamp, not the wall-clock time: publishing the same packet
at two different wall-clock times emits identical messages, and both stamps
equal the packet timestamp. -/
theorem C9_packet_timestamp (w1 w2 : Nat) (wf bf : String)
    (pkt : SpinOutputPacket) :
    publishState w1 wf bf pkt = publishState w2 wf bf pkt ∧
    (publishState w1 wf bf pkt).1.stamp = pkt.timestamp ∧
    (publishState w1 wf bf pkt).2.stamp = pkt.timestamp :=
  ⟨rfl, rfl, rfl⟩

/-! ## The external point-structure registration of PointNormalUV

Embedded from base-data-source.h lines 136-140: the macro
POINT_CLOUD_REGISTER_POINT_STRUCT lists, for each external channel name,
the member of PointNormalUV it reads.  The header registers
(float, x, x)(float, y, y)(float, x, z)(float, normal_x, normal_x)
(float, normal_y, normal_y)(float, normal_z, normal_z)(float, u, u)
(float, v, v): the third entry binds the member x to the channel named z. -/

/-- The channel registration of PointNormalUV, entry for entry from the
macro invocation: (channel name, member accessor). -/
def pointNormalUVChannels : List (String × (PointNormalUV → ℚ)) :=
  [("x", fun p => p.x),
   ("y", fun p => p.y),
   ("z", fun p => p.x),
   ("normal_x", fun p => p.normal_x),
   ("normal_y", fun p => p.normal_y),
   ("normal_z", fun p => p.normal_z),
   ("u", fun p => p.u),
   ("v", fun p => p.v)]

/-- The value an external consumer reads from a named channel of a
registered PointNormalUV. -/
def registeredChannelValue (name : String) (p : PointNormalUV) : Option ℚ :=
  (pointNormalUVChannels.find? (fun e => e.1 == name)).map (fun e => e.2 p)

/-- Claim C8: the header's registration binds the channel z to the member x,
so on the vertex with position (1, 2, 3) the external x and y channels
return the position components 1 and 2 but the z channel returns 1, not the
vertex's z component 3 — the registration does not carry the full 3-D
position, contradicting the claim. -/
theorem C8_registration_bug :
    registeredChannelValue "x" ⟨1, 2, 3, 0, 0, 0, 0, 0⟩ = some 1 ∧
    registeredChannelValue "y" ⟨1, 2, 3, 0, 0, 0, 0, 0⟩ = some 2 ∧
    registeredChannelValue "z" ⟨1, 2, 3, 0, 0, 0, 0, 0⟩ = some 1 ∧
    (⟨1, 2, 3, 0, 0, 0, 0, 0⟩ : PointNormalUV).z = 3 ∧
    registeredChannelValue "z" ⟨1, 2, 3, 0, 0, 0, 0, 0⟩ ≠
      some (⟨1, 2, 3, 0, 0, 0, 0, 0⟩ : PointNormalUV).z := by
  refine ⟨rfl, rfl, rfl, rfl, ?_⟩
  intro h
  have : (1 : ℚ) = 3 := Option.some.inj h
  norm_num at this

end SparkVioRos
